import Mathlib

/-!
Verification of the message-capture-and-retrieval data path of the Telegram
summary bot in `bot.py`.

The embedding below translates the persistence layer (`messages`,
`chat_registry`, `topic_alias` tables and the SQL queries over them), the
capture handler, the prompt assemblers, the generator functions and the
interactive handlers into pure Lean functions.  SQLite tables are lists of
rows in insertion order; the implicit SQLite `rowid` is modelled explicitly.
`created_at` values are produced by `datetime.now(TZ).isoformat()` with the
fixed `TZ = UTC-03:00`; since every stored timestamp carries the same offset
and the same `YYYY-MM-DDTHH:MM:SS[.ffffff]-03:00` shape, SQLite's binary TEXT
comparison of those strings coincides with lexicographic comparison of the
numeric components, which is how `DateTime` comparison is defined here
(microseconds are a trailing component; a timestamp without a fractional part
compares like one with fraction 0, matching the `.`-vs-`-` byte order).
-/

namespace Bot

set_option maxRecDepth 8192

/-! ### Calendar (Python `datetime.date` / `timedelta(days=1)`) -/

/-- A Gregorian calendar date, as Python's `date(year, month, day)`. -/
structure Date where
  year : Int
  month : Nat
  day : Nat
deriving DecidableEq, Repr

/-- Gregorian leap-year rule used by Python's `calendar`/`datetime`. -/
def isLeap (y : Int) : Bool :=
  y % 4 == 0 && (y % 100 != 0 || y % 400 == 0)

/-- Number of days of month `m` in year `y` (Gregorian). -/
def daysInMonth (y : Int) (m : Nat) : Nat :=
  if m = 2 then (if isLeap y then 29 else 28)
  else if m = 4 ∨ m = 6 ∨ m = 9 ∨ m = 11 then 30
  else 31

/-- `d + timedelta(days=1)`: the next calendar day. -/
def Date.next (d : Date) : Date :=
  if d.day < daysInMonth d.year d.month then ⟨d.year, d.month, d.day + 1⟩
  else if d.month < 12 then ⟨d.year, d.month + 1, 1⟩
  else ⟨d.year + 1, 1, 1⟩

/-- `d - timedelta(days=1)`: the previous calendar day. -/
def Date.prev (d : Date) : Date :=
  if 1 < d.day then ⟨d.year, d.month, d.day - 1⟩
  else if 1 < d.month then ⟨d.year, d.month - 1, daysInMonth d.year (d.month - 1)⟩
  else ⟨d.year - 1, 12, 31⟩

/-! ### Timestamps (`now_iso`, ISO-8601 strings at the fixed -03:00 offset) -/

/-- A civil timestamp in the bot's fixed UTC-03:00 zone, the components of the
ISO string written by `now_iso()`. -/
structure DateTime where
  year : Int
  month : Nat
  day : Nat
  hour : Nat
  minute : Nat
  second : Nat
  usec : Nat
deriving DecidableEq, Repr

/-- The calendar date of a timestamp (`datetime.date()`). -/
def DateTime.toDate (t : DateTime) : Date :=
  ⟨t.year, t.month, t.day⟩

/-- Midnight at the start of a calendar day, as built by `day_range`. -/
def Date.startOfDay (d : Date) : DateTime :=
  ⟨d.year, d.month, d.day, 0, 0, 0, 0⟩

/-- Strict comparison of two timestamps: lexicographic on the components,
which is what SQLite's binary comparison of the equal-offset ISO strings
computes. -/
def DateTime.ltb (a b : DateTime) : Bool :=
  decide (a.year < b.year ∨ (a.year = b.year ∧
    (a.month < b.month ∨ (a.month = b.month ∧
      (a.day < b.day ∨ (a.day = b.day ∧
        (a.hour < b.hour ∨ (a.hour = b.hour ∧
          (a.minute < b.minute ∨ (a.minute = b.minute ∧
            (a.second < b.second ∨ (a.second = b.second ∧
              a.usec < b.usec))))))))))))

/-- Non-strict timestamp comparison (`>=` between the ISO strings is the
negation of the strict comparison the other way around). -/
def DateTime.leb (a b : DateTime) : Bool :=
  !(DateTime.ltb b a)

theorem DateTime.ltb_iff (a b : DateTime) :
    DateTime.ltb a b = true ↔
      (a.year < b.year ∨ (a.year = b.year ∧
        (a.month < b.month ∨ (a.month = b.month ∧
          (a.day < b.day ∨ (a.day = b.day ∧
            (a.hour < b.hour ∨ (a.hour = b.hour ∧
              (a.minute < b.minute ∨ (a.minute = b.minute ∧
                (a.second < b.second ∨ (a.second = b.second ∧
                  a.usec < b.usec)))))))))))) := by
  simp [DateTime.ltb]

theorem DateTime.leb_trans {a b c : DateTime}
    (h₁ : DateTime.leb a b = true) (h₂ : DateTime.leb b c = true) :
    DateTime.leb a c = true := by
  simp only [DateTime.leb, Bool.not_eq_true', ← Bool.not_eq_true] at *
  rw [DateTime.ltb_iff] at *
  intro h
  rcases a with ⟨ay, am, ad, ah, amin, as, au⟩
  rcases b with ⟨by_, bm, bd, bh, bmin, bs, bu⟩
  rcases c with ⟨cy, cm, cd, ch, cmin, cs, cu⟩
  simp only at *
  omega

theorem DateTime.leb_total (a b : DateTime) :
    DateTime.leb a b = true ∨ DateTime.leb b a = true := by
  simp only [DateTime.leb, Bool.not_eq_true', ← Bool.not_eq_true]
  rw [DateTime.ltb_iff, DateTime.ltb_iff]
  rcases a with ⟨ay, am, ad, ah, amin, as, au⟩
  rcases b with ⟨by_, bm, bd, bh, bmin, bs, bu⟩
  simp only at *
  omega

/-! ### Python string helpers used by the handlers -/

/-- ASCII whitespace stripped by Python's `str.strip()` (the source never
feeds non-ASCII whitespace to `strip`). -/
def isSpaceChar (c : Char) : Bool :=
  c == ' ' || c == '\t' || c == '\n' || c == '\r' || c == '\x0b' || c == '\x0c'

/-- Python `s.strip()`. -/
def pyStrip (s : String) : String :=
  String.mk (((s.data.dropWhile isSpaceChar).reverse.dropWhile isSpaceChar).reverse)

/-- Python slicing `s[:n]` (by code points, as Python indexes `str`). -/
def pySlice (s : String) (n : Nat) : String :=
  String.mk (s.data.take n)

/-- Python `"x".join(parts)` / the separator-join used by the prompt
assemblers. -/
def joinSep (sep : String) : List String → String
  | [] => ""
  | [x] => x
  | x :: y :: xs => x ++ sep ++ joinSep sep (y :: xs)

/-- Python truthiness fallback `a or fallback` for an optional string:
`None` and `""` are falsy. -/
def truthyOr (o : Option String) (fallback : String) : String :=
  match o with
  | none => fallback
  | some s => if s = "" then fallback else s

/-- Numeric value of an ASCII digit. -/
def digitVal (c : Char) : Nat := c.toNat - '0'.toNat

/-- Decimal value of a digit list (used by the `int(...)` model). -/
def natOfDigits (l : List Char) : Nat :=
  l.foldl (fun acc c => 10 * acc + digitVal c) 0

/-- Python `str(n)` of an optional integer: `None` prints as `"None"`. -/
def optIntStr (o : Option Int) : String :=
  match o with
  | none => "None"
  | some i => toString i

/-- `d.strftime("%d/%m/%Y")`: zero-padded day and month. -/
def pad2 (n : Nat) : String :=
  if n < 10 then "0" ++ toString n else toString n

def fmtDate (d : Date) : String :=
  pad2 d.day ++ "/" ++ pad2 d.month ++ "/" ++ toString d.year

/-! ### Exceptions

Uncaught Python exceptions are modelled explicitly: a handler result carries
`raised : Option PyErr`, and `none` means the handler returned normally. -/

inductive GenErr
  /-- OpenAI quota exhaustion / rate limiting. -/
  | rateLimit
  /-- Connectivity failure reaching the generation endpoint. -/
  | connection
  /-- A non-success HTTP status from the generation endpoint. -/
  | badStatus (code : Nat)
deriving DecidableEq, Repr

inductive PyErr
  /-- `ValueError` (`int(...)`, `date(...)`, `date.fromisoformat(...)`). -/
  | valueError
  /-- `AttributeError` (attribute access on `None`). -/
  | attributeError
  /-- `IndexError` (list indexing out of range). -/
  | indexError
  /-- An error raised by the `client.responses.create` call. -/
  | genError (e : GenErr)
deriving DecidableEq, Repr

/-! ### Data model: tables as lists of rows -/

/-- One row of the `messages` table; `rowid` is SQLite's implicit rowid,
assigned at insertion. -/
structure Row where
  rowid : Nat
  chat_id : Int
  thread_id : Option Int
  user_id : Option Int
  user_name : String
  text : String
  created_at : DateTime
deriving DecidableEq, Repr

/-- One row of the `chat_registry` table (`chat_id` is the primary key). -/
structure ChatRegRow where
  chat_id : Int
  chat_title : String
  last_seen : DateTime
deriving DecidableEq, Repr

/-- One row of the `topic_alias` table (`(chat_id, thread_id)` primary key). -/
structure AliasRow where
  chat_id : Int
  thread_id : Int
  aliasName : String
deriving DecidableEq, Repr

/-- The SQLite database `data.db`. -/
structure Db where
  messages : List Row
  chat_registry : List ChatRegRow
  topic_alias : List AliasRow
deriving DecidableEq, Repr

/-- The freshly initialised database (`init_db` creates empty tables). -/
def emptyDb : Db := ⟨[], [], []⟩

/-- `ORDER BY created_at ASC` comparison between message rows. -/
def rowLe (a b : Row) : Bool :=
  DateTime.leb a.created_at b.created_at

/-! ### Configuration (environment variables) -/

/-- Process configuration.  `TARGET_CHAT_ID` is kept as the integer it
denotes (the source compares `str(chat_id) == str(TARGET_CHAT_ID)` and
`chat_id != int(TARGET_CHAT_ID)`, which agree with integer equality when the
environment variable is the canonical decimal of the chat id).
`ADMIN_USER_ID` stays a string, `""` meaning unset, exactly as in the
source. -/
structure Config where
  targetChatId : Int
  targetThreadId : Option Int
  adminUserId : String

/-! ### Inbound platform events -/

inductive ChatType
  | group
  | supergroup
  | privateChat
  | channel
deriving DecidableEq, Repr

structure TgChat where
  id : Int
  ctype : ChatType
  title : Option String
  username : Option String
deriving DecidableEq, Repr

structure TgUser where
  id : Int
  full_name : String
deriving DecidableEq, Repr

structure TgMessage where
  text : Option String
  message_thread_id : Option Int
deriving DecidableEq, Repr

/-- An inbound update as the handlers see it.  `message` is `None` for
updates that carry no ordinary message (e.g. channel posts, which arrive as
`channel_post`). -/
structure TgUpdate where
  message : Option TgMessage
  effective_chat : TgChat
  effective_user : Option TgUser
deriving DecidableEq, Repr

/-! ### DB layer (`day_range`, `upsert_chat`, `save_message`, queries) -/

/-- `day_range(d)`: the half-open `[start-of-day, start-of-next-day)`
window, both endpoints at midnight in the fixed -03:00 zone. -/
def day_range (d : Date) : DateTime × DateTime :=
  (d.startOfDay, d.next.startOfDay)

/-- `created_at >= start AND created_at < end`. -/
def inRange (s e t : DateTime) : Bool :=
  DateTime.leb s t && DateTime.ltb t e

/-- The `WHERE chat_id=? AND created_at>=? AND created_at<?` filter shared by
the day-scoped queries. -/
def dayChatFilter (cid : Int) (d : Date) (r : Row) : Bool :=
  r.chat_id == cid && inRange (day_range d).1 (day_range d).2 r.created_at

/-- `upsert_chat`'s effect on the `chat_registry` table:
`INSERT ... ON CONFLICT(chat_id) DO UPDATE` updates the existing row in
place, otherwise appends. -/
def upsertReg (l : List ChatRegRow) (cid : Int) (title : String)
    (now : DateTime) : List ChatRegRow :=
  if l.any (fun r => r.chat_id == cid) then
    l.map (fun r => if r.chat_id == cid then ⟨cid, title, now⟩ else r)
  else
    l ++ [⟨cid, title, now⟩]

def upsert_chat (db : Db) (cid : Int) (title : String) (now : DateTime) : Db :=
  { db with chat_registry := upsertReg db.chat_registry cid title now }

/-- `save_message`: one `INSERT` into `messages`, with `created_at` set to
`now_iso()` at insertion time. -/
def save_message (db : Db) (cid : Int) (tid : Option Int) (uid : Option Int)
    (uname : String) (text : String) (now : DateTime) : Db :=
  { db with messages :=
      db.messages ++ [⟨db.messages.length, cid, tid, uid, uname, text, now⟩] }

/-- The row set of `fetch_general` before projection: filter to the chat and
day window, `ORDER BY created_at ASC`, `LIMIT limit`. -/
def fetch_general_rows (msgs : List Row) (cid : Int) (d : Date)
    (limit : Nat) : List Row :=
  ((msgs.filter (dayChatFilter cid d)).mergeSort rowLe).take limit

/-- `fetch_general`: `SELECT COALESCE(thread_id, 0), user_name, text ...`
(default `limit` at the call sites is 8000). -/
def fetch_general (msgs : List Row) (cid : Int) (d : Date) (limit : Nat) :
    List (Int × String × String) :=
  (fetch_general_rows msgs cid d limit).map
    (fun r => (r.thread_id.getD 0, r.user_name, r.text))

/-- The row set of `fetch_thread` before projection: `tid = 0` selects the
`thread_id IS NULL` rows, otherwise `thread_id = tid`. -/
def fetch_thread_rows (msgs : List Row) (cid : Int) (tid : Int) (d : Date)
    (limit : Nat) : List Row :=
  if tid == 0 then
    ((msgs.filter (fun r =>
        r.chat_id == cid && r.thread_id == none
          && inRange (day_range d).1 (day_range d).2 r.created_at)).mergeSort
      rowLe).take limit
  else
    ((msgs.filter (fun r =>
        r.chat_id == cid && r.thread_id == some tid
          && inRange (day_range d).1 (day_range d).2 r.created_at)).mergeSort
      rowLe).take limit

/-- `fetch_thread`: `SELECT user_name, text ...` (default `limit` 6000). -/
def fetch_thread (msgs : List Row) (cid : Int) (tid : Int) (d : Date)
    (limit : Nat) : List (String × String) :=
  (fetch_thread_rows msgs cid tid d limit).map (fun r => (r.user_name, r.text))

/-- `get_alias`: primary-key lookup in `topic_alias`. -/
def get_alias (als : List AliasRow) (cid tid : Int) : Option String :=
  (als.find? (fun a => a.chat_id == cid && a.thread_id == tid)).map
    (fun a => a.aliasName)

/-- `list_threads_in_chat_for_day`:
`SELECT DISTINCT COALESCE(thread_id, 0) ... ORDER BY tid`. -/
def list_threads_in_chat_for_day (msgs : List Row) (cid : Int) (d : Date) :
    List Int :=
  (((msgs.filter (dayChatFilter cid d)).map
      (fun r => r.thread_id.getD 0)).dedup).mergeSort
    (fun a b => decide (a ≤ b))

/-- `list_chats`: `SELECT chat_id, chat_title FROM chat_registry
ORDER BY chat_title`. -/
def list_chats (reg : List ChatRegRow) : List (Int × String) :=
  ((reg.map (fun r => (r.chat_id, r.chat_title))).mergeSort
    (fun a b => decide (a.2 ≤ b.2)))

/-- `db_counts`: (distinct chats in the registry, distinct
`chat_id:thread_id` keys among messages, total message count). -/
def db_counts (db : Db) : Nat × Nat × Nat :=
  (((db.chat_registry.map (fun r => r.chat_id)).dedup).length,
   ((db.messages.map (fun r =>
       toString r.chat_id ++ ":" ++ toString (r.thread_id.getD 0))).dedup).length,
   db.messages.length)

/-! ### `parse_date_from_text`

The source runs `re.search(r"(\d{2})[\/\-](\d{2})[\/\-](\d{4})", txt)` — a
search for the pattern anywhere in the text, with `/` or `-` as separator —
and then calls `date(yyyy, mm, dd)`, which raises `ValueError` when the
matched numbers are not a valid calendar date.  `\d` is modelled as an ASCII
digit (Python's `\d` additionally matches other Unicode digits; no claim
depends on those). -/

/-- Try to match `dd sep mm sep yyyy` at the head of the character list. -/
def matchDateAt (l : List Char) : Option (Nat × Nat × Nat) :=
  match l with
  | d1 :: d2 :: s1 :: m1 :: m2 :: s2 :: y1 :: y2 :: y3 :: y4 :: _ =>
    if d1.isDigit && d2.isDigit && (s1 == '/' || s1 == '-')
        && m1.isDigit && m2.isDigit && (s2 == '/' || s2 == '-')
        && y1.isDigit && y2.isDigit && y3.isDigit && y4.isDigit then
      some (10 * digitVal d1 + digitVal d2,
            10 * digitVal m1 + digitVal m2,
            1000 * digitVal y1 + 100 * digitVal y2
              + 10 * digitVal y3 + digitVal y4)
    else
      none
  | _ => none

/-- Leftmost match of the date pattern (the semantics of `re.search` for
this fixed-length pattern). -/
def searchDate : List Char → Option (Nat × Nat × Nat)
  | [] => none
  | c :: tl =>
    match matchDateAt (c :: tl) with
    | some r => some r
    | none => searchDate tl

/-- The validity check `date(yyyy, mm, dd)` performs before constructing a
date (`MINYEAR = 1`, `MAXYEAR = 9999`). -/
def validPyDate (y m d : Nat) : Bool :=
  decide (1 ≤ y) && decide (y ≤ 9999) && decide (1 ≤ m) && decide (m ≤ 12)
    && decide (1 ≤ d) && decide (d ≤ daysInMonth (Int.ofNat y) m)

/-- `parse_date_from_text`: `Except.error ()` models the uncaught
`ValueError` from `date(...)`, `Except.ok none` the no-match early return. -/
def parse_date_from_text (txt : String) : Except Unit (Option Date) :=
  match searchDate txt.data with
  | none => Except.ok none
  | some (dd, mm, yyyy) =>
    if validPyDate yyyy mm dd then
      Except.ok (some ⟨Int.ofNat yyyy, mm, dd⟩)
    else
      Except.error ()

/-! ### `int(...)` and `date.fromisoformat(...)` for callback payloads -/

/-- Python `int(s)` for the strings the callback payloads contain: optional
surrounding whitespace, optional sign, at least one ASCII digit. -/
def pyInt (s : String) : Except Unit Int :=
  match ((s.data.dropWhile isSpaceChar).reverse.dropWhile isSpaceChar).reverse with
  | '-' :: rest =>
    if rest ≠ [] && rest.all Char.isDigit then
      Except.ok (-(Int.ofNat (natOfDigits rest)))
    else Except.error ()
  | '+' :: rest =>
    if rest ≠ [] && rest.all Char.isDigit then
      Except.ok (Int.ofNat (natOfDigits rest))
    else Except.error ()
  | rest =>
    if rest ≠ [] && rest.all Char.isDigit then
      Except.ok (Int.ofNat (natOfDigits rest))
    else Except.error ()

/-- `date.fromisoformat` on the canonical `YYYY-MM-DD` strings produced by
`date.isoformat()` (the only values the bot ever puts in `picktid`
payloads). -/
def dateFromIso (s : String) : Except Unit Date :=
  match s.data with
  | [y1, y2, y3, y4, '-', m1, m2, '-', d1, d2] =>
    if y1.isDigit && y2.isDigit && y3.isDigit && y4.isDigit
        && m1.isDigit && m2.isDigit && d1.isDigit && d2.isDigit then
      let y := 1000 * digitVal y1 + 100 * digitVal y2
        + 10 * digitVal y3 + digitVal y4
      let m := 10 * digitVal m1 + digitVal m2
      let d := 10 * digitVal d1 + digitVal d2
      if validPyDate y m d then Except.ok ⟨Int.ofNat y, m, d⟩
      else Except.error ()
    else Except.error ()
  | _ => Except.error ()

/-! ### `is_admin_user` -/

/-- `is_admin_user`: `True` when `ADMIN_USER_ID` is unset, otherwise the
string comparison `str(update.effective_user.id) == str(ADMIN_USER_ID)`; the
`except` clause turns an `AttributeError` on a missing user into `False`. -/
def is_admin_user (cfg : Config) (upd : TgUpdate) : Bool :=
  if cfg.adminUserId = "" then true
  else
    match upd.effective_user with
    | none => false
    | some u => toString u.id == cfg.adminUserId

/-! ### The capture handler -/

/-- `capture`: drop updates without a message or with falsy (`None`/empty)
text, drop the control chat, otherwise upsert the chat registry and insert
the message.  The source performs no chat-type check. -/
def capture (cfg : Config) (upd : TgUpdate) (now : DateTime) (db : Db) : Db :=
  match upd.message with
  | none => db
  | some msg =>
    match msg.text with
    | none => db
    | some t =>
      if t = "" then db
      else if upd.effective_chat.id == cfg.targetChatId then db
      else
        let title := truthyOr upd.effective_chat.title
          (truthyOr upd.effective_chat.username (toString upd.effective_chat.id))
        let db1 := upsert_chat db upd.effective_chat.id title now
        let uid := upd.effective_user.map TgUser.id
        let uname :=
          match upd.effective_user with
          | some u => u.full_name
          | none => "SemNome"
        save_message db1 upd.effective_chat.id msg.message_thread_id uid uname t now

/-- A run of the capture handler over a stream of (update, arrival-time)
events. -/
def captureMany (cfg : Config) (evs : List (TgUpdate × DateTime)) (db : Db) :
    Db :=
  evs.foldl (fun s p => capture cfg p.1 p.2 s) db

/-! ### Prompt assemblers (`prompt_general`, `prompt_topic`)

Both assemblers strip each message text, skip empties, truncate texts longer
than 350 code points to 350 plus an ellipsis, and format a line
`"{user}: {text}"`.  `prompt_general` additionally partitions by
`COALESCE(thread_id, 0)`, sorts the topic keys ascending and joins the topic
blocks with `"\n\n---\n\n"`.  `prompt_general` reads topic aliases from the
database, so the embedding takes the `topic_alias` table as an argument. -/

/-- The per-message truncation `t[:350] + "…" if len(t) > 350 else t`. -/
def truncate350 (t : String) : String :=
  if 350 < t.length then pySlice t 350 ++ "…" else t

/-- One formatted line of the prompt body, or `none` when the stripped text
is empty (the `continue` branch). -/
def lineOfRow (user text : String) : Option String :=
  let t := pyStrip text
  if t = "" then none
  else some (user ++ ": " ++ truncate350 t)

/-- The lines collected for one topic key, in row order. -/
def linesForTid (rows : List (Int × String × String)) (tid : Int) :
    List String :=
  rows.filterMap (fun r => if r.1 == tid then lineOfRow r.2.1 r.2.2 else none)

/-- `sorted(by_tid.keys())`: every key that occurs in the rows (keys are
registered by `setdefault` even when all their texts strip to empty),
ascending. -/
def sortedTids (rows : List (Int × String × String)) : List Int :=
  ((rows.map (fun r => r.1)).dedup).mergeSort (fun a b => decide (a ≤ b))

/-- The topic heading inside `prompt_general`. -/
def topicTitle (als : List AliasRow) (cid tid : Int) : String :=
  if tid == 0 then "SEM TÓPICO"
  else
    match get_alias als cid tid with
    | some a => a
    | none => "TÓPICO " ++ toString tid

/-- One topic block: heading, newline, then the joined lines. -/
def blockForTid (als : List AliasRow) (cid : Int)
    (rows : List (Int × String × String)) (tid : Int) : String :=
  topicTitle als cid tid ++ "\n" ++ joinSep "\n" (linesForTid rows tid)

/-- The assembled message body of the general prompt. -/
def promptBody (als : List AliasRow) (cid : Int)
    (rows : List (Int × String × String)) : String :=
  joinSep "\n\n---\n\n" ((sortedTids rows).map (blockForTid als cid rows))

/-- The fixed instruction template of `prompt_general`, up to and including
`"Mensagens do dia:\n"`. -/
def promptHeaderGeneral (d : Date) : String :=
  "Data: " ++ fmtDate d ++ " (fuso -03:00)\n"
    ++ "Faça um RESUMO GERAL juntando TODOS os tópicos.\n\n"
    ++ "Quero em blocos:\n"
    ++ "1) Principais assuntos\n"
    ++ "2) Reclamações / problemas (quem + resumo)\n"
    ++ "3) Observações importantes\n"
    ++ "4) O que melhorar / próximas ações (itens práticos)\n"
    ++ "5) Quem mais participou (top 10)\n\n"
    ++ "Regras:\n"
    ++ "- Não invente.\n"
    ++ "- Não copie longos trechos; resuma.\n"
    ++ "- Se incerto, diga 'incerto'.\n\n"
    ++ "Mensagens do dia:\n"

def prompt_general (d : Date) (cid : Int) (als : List AliasRow)
    (rows : List (Int × String × String)) : String :=
  promptHeaderGeneral d ++ promptBody als cid rows

/-- The fixed instruction template of `prompt_topic`, up to and including
`"Mensagens:\n"`. -/
def promptHeaderTopic (d : Date) (topicLabel : String) : String :=
  "Data: " ++ fmtDate d ++ " (fuso -03:00)\n"
    ++ "Tópico: " ++ topicLabel ++ "\n\n"
    ++ "Faça um resumo operacional:\n"
    ++ "1) Assuntos principais\n"
    ++ "2) Reclamações / problemas\n"
    ++ "3) Observações\n"
    ++ "4) Melhorias / ações\n"
    ++ "5) Participantes (top 10)\n\n"
    ++ "Mensagens:\n"

def prompt_topic (d : Date) (topicLabel : String)
    (rows : List (String × String)) : String :=
  promptHeaderTopic d topicLabel
    ++ joinSep "\n" (rows.filterMap (fun r => lineOfRow r.1 r.2))

/-! ### The generator functions

`client.responses.create` is an external call; it is modelled as an oracle
`gen : String → Except GenErr (Option String)` mapping the prompt to either
an error (a raised exception) or `resp.output_text` (which may be `None`).
A generator result records the prompts submitted to the oracle, the texts
passed to `send_to_resumo`, and the exception escaping the generator, if
any.  Neither generator contains a `try`/`except` in the source, so an
oracle error always escapes. -/

structure GenEff where
  apiCalls : List String
  sent : List String
  raised : Option GenErr
deriving DecidableEq, Repr

/-- `(resp.output_text or "").strip() or "Resumo vazio."`. -/
def outOrDefault (ot : Option String) : String :=
  let o := pyStrip (ot.getD "")
  if o = "" then "Resumo vazio." else o

def generalHeaderMsg (d : Date) (cid : Int) : String :=
  "📌 Resumo GERAL — " ++ fmtDate d ++ "\nGrupo: " ++ toString cid ++ "\n\n"

def generate_and_send_general (gen : String → Except GenErr (Option String))
    (db : Db) (cid : Int) (d : Date) : GenEff :=
  let rows := fetch_general db.messages cid d 8000
  if rows.isEmpty then
    ⟨[], [generalHeaderMsg d cid ++ "(sem mensagens registradas)"], none⟩
  else
    let p := prompt_general d cid db.topic_alias rows
    match gen p with
    | Except.error e => ⟨[p], [], some e⟩
    | Except.ok ot => ⟨[p], [generalHeaderMsg d cid ++ outOrDefault ot], none⟩

/-- The topic label used both by `generate_and_send_topic` and by the
keyboards. -/
def topicLabel (als : List AliasRow) (cid tid : Int) : String :=
  if tid == 0 then "Sem tópico"
  else
    match get_alias als cid tid with
    | some a => a
    | none => "Tópico " ++ toString tid

def topicHeaderMsg (label : String) (d : Date) (cid : Int) : String :=
  "📌 Resumo — " ++ label ++ " — " ++ fmtDate d ++ "\nGrupo: "
    ++ toString cid ++ "\n\n"

def generate_and_send_topic (gen : String → Except GenErr (Option String))
    (db : Db) (cid tid : Int) (d : Date) : GenEff :=
  let rows := fetch_thread db.messages cid tid d 6000
  let label := topicLabel db.topic_alias cid tid
  if rows.isEmpty then
    ⟨[], [topicHeaderMsg label d cid ++ "(sem mensagens registradas)"], none⟩
  else
    let p := prompt_topic d label rows
    match gen p with
    | Except.error e => ⟨[p], [], some e⟩
    | Except.ok ot =>
      ⟨[p], [topicHeaderMsg label d cid ++ outOrDefault ot], none⟩

/-! ### Interactive handlers

Each handler is a pure function from the inbound event, the database, and
the per-operator transient state `ctx.user_data["awaiting_date"]` to a
result recording the new database, the new transient state, the outbound
texts (`reply_text` replies, `send_to_resumo` messages, `edit_message_text`
edits), whether `q.answer()` ran, the prompts submitted to the generation
API, and an uncaught exception if one escaped. -/

/-- `ctx.user_data["awaiting_date"]`: the pending date request. -/
structure PendingSel where
  mode : String
  chat_id : Int
deriving DecidableEq, Repr

structure HRes where
  db : Db
  awaiting : Option PendingSel
  replies : List String
  sent : List String
  edits : List String
  answered : Bool
  apiCalls : List String
  raised : Option PyErr
deriving DecidableEq, Repr

/-- A handler result with no effects: state returned unchanged. -/
def HRes.base (db : Db) (aw : Option PendingSel) : HRes :=
  ⟨db, aw, [], [], [], false, [], none⟩

/-- `cmd_start`: only in the control chat; non-operators get
`"Sem permissão."`, the operator gets the panel. -/
def cmd_start (cfg : Config) (db : Db) (aw : Option PendingSel)
    (upd : TgUpdate) : HRes :=
  if upd.effective_chat.id ≠ cfg.targetChatId then HRes.base db aw
  else if !is_admin_user cfg upd then
    match upd.message with
    | none => { HRes.base db aw with raised := some PyErr.attributeError }
    | some _ => { HRes.base db aw with replies := ["Sem permissão."] }
  else
    match upd.message with
    | none => { HRes.base db aw with raised := some PyErr.attributeError }
    | some _ => { HRes.base db aw with replies := ["Painel de Resumos ✅"] }

/-- The body of the `/status` reply. -/
def statusText (db : Db) : String :=
  let c := db_counts db
  "📊 STATUS DO BOT\n\n"
    ++ "Grupos vistos: " ++ toString c.1 ++ "\n"
    ++ "Tópicos vistos: " ++ toString c.2.1 ++ "\n"
    ++ "Mensagens gravadas: " ++ toString c.2.2 ++ "\n\n"
    ++ "Obs: o bot só conta o que chegou DEPOIS que ele ficou online."

/-- `cmd_status`: same authorization prefix as `cmd_start`. -/
def cmd_status (cfg : Config) (db : Db) (aw : Option PendingSel)
    (upd : TgUpdate) : HRes :=
  if upd.effective_chat.id ≠ cfg.targetChatId then HRes.base db aw
  else if !is_admin_user cfg upd then
    match upd.message with
    | none => { HRes.base db aw with raised := some PyErr.attributeError }
    | some _ => { HRes.base db aw with replies := ["Sem permissão."] }
  else
    match upd.message with
    | none => { HRes.base db aw with raised := some PyErr.attributeError }
    | some _ => { HRes.base db aw with replies := [statusText db] }

/-- `cmd_id`: no authorization check at all; echoes identifiers to whoever
asks, in whatever chat. -/
def cmd_id (db : Db) (aw : Option PendingSel) (upd : TgUpdate) : HRes :=
  match upd.message with
  | none => { HRes.base db aw with raised := some PyErr.attributeError }
  | some m =>
    match upd.effective_user with
    | none => { HRes.base db aw with raised := some PyErr.attributeError }
    | some u =>
      { HRes.base db aw with replies :=
          ["user_id: " ++ toString u.id
            ++ "\nchat_id: " ++ toString upd.effective_chat.id
            ++ "\nthread_id: " ++ optIntStr m.message_thread_id] }

/-- Python `s.split(maxsplit=2)`: whitespace-run split into at most three
parts, the third keeping its internal and trailing whitespace. -/
def pySplitMax2 (s : String) : List String :=
  let l1 := s.data.dropWhile isSpaceChar
  match l1 with
  | [] => []
  | _ =>
    let t1 := l1.takeWhile (fun c => !isSpaceChar c)
    let r1 := (l1.dropWhile (fun c => !isSpaceChar c)).dropWhile isSpaceChar
    match r1 with
    | [] => [String.mk t1]
    | _ =>
      let t2 := r1.takeWhile (fun c => !isSpaceChar c)
      let r2 := (r1.dropWhile (fun c => !isSpaceChar c)).dropWhile isSpaceChar
      match r2 with
      | [] => [String.mk t1, String.mk t2]
      | _ => [String.mk t1, String.mk t2, String.mk r2]

/-- `cmd_alias` (`/apelido_topico`): replies even outside the control chat;
parses `<thread_id>` with `int(...)` (which can raise) and then only
acknowledges — it never writes an alias. -/
def cmd_alias (cfg : Config) (db : Db) (aw : Option PendingSel)
    (upd : TgUpdate) : HRes :=
  match upd.message with
  | none => { HRes.base db aw with raised := some PyErr.attributeError }
  | some m =>
    if upd.effective_chat.id ≠ cfg.targetChatId then
      { HRes.base db aw with replies := ["Use este comando no Resumo RGL."] }
    else if !is_admin_user cfg upd then
      { HRes.base db aw with replies := ["Sem permissão."] }
    else
      match pySplitMax2 (m.text.getD "") with
      | _ :: p1 :: _ :: _ =>
        match pyInt p1 with
        | Except.error _ =>
          { HRes.base db aw with raised := some PyErr.valueError }
        | Except.ok _ =>
          { HRes.base db aw with replies :=
              ["✅ Apelido recebido.\n\n"
                ++ "⚠️ Neste modelo, apelidos por tópico são por GRUPO.\n"
                ++ "Se quiser, eu adiciono um botão no painel pra definir apelido no grupo escolhido."] }
      | _ =>
        { HRes.base db aw with replies :=
            ["Use: /apelido_topico <thread_id> <apelido>"] }

/-- `on_text_in_resumo`: free-text date input while a selection is
pending. -/
def on_text_in_resumo (cfg : Config)
    (gen : String → Except GenErr (Option String)) (db : Db)
    (aw : Option PendingSel) (upd : TgUpdate) : HRes :=
  if upd.effective_chat.id ≠ cfg.targetChatId then HRes.base db aw
  else if !is_admin_user cfg upd then HRes.base db aw
  else
    match aw with
    | none => HRes.base db aw
    | some pending =>
      match upd.message with
      | none => { HRes.base db aw with raised := some PyErr.attributeError }
      | some m =>
        let txt := pyStrip (m.text.getD "")
        match parse_date_from_text txt with
        | Except.error _ =>
          { HRes.base db aw with raised := some PyErr.valueError }
        | Except.ok none =>
          { HRes.base db aw with replies := ["Formato inválido. Use DD/MM/AAAA."] }
        | Except.ok (some d) =>
          if pending.mode == "gen" then
            let eff := generate_and_send_general gen db pending.chat_id d
            match eff.raised with
            | some e =>
              ⟨db, none, ["Gerando resumo geral…"], eff.sent, [], false,
                eff.apiCalls, some (PyErr.genError e)⟩
            | none =>
              ⟨db, none, ["Gerando resumo geral…", "✅ Enviado."], eff.sent,
                [], false, eff.apiCalls, none⟩
          else if pending.mode == "topics" then
            let tids := list_threads_in_chat_for_day db.messages pending.chat_id d
            if tids.isEmpty then
              ⟨db, none,
                ["Não achei mensagens nessa data.\n"
                  ++ "Obs: o bot só pega mensagens novas (sem histórico antigo)."],
                [], [], false, [], none⟩
            else
              ⟨db, none, ["Escolha um tópico (" ++ fmtDate d ++ "):"], [], [],
                false, [], none⟩
          else
            ⟨db, none, [], [], [], false, [], none⟩

/-! ### `on_callback` -/

/-- The callback query as the handler reads it: `q.message.chat_id` (with
`none` modelling a missing `q.message`) and the opaque payload `q.data`. -/
structure CbQuery where
  msgChatId : Option Int
  data : Option String
deriving DecidableEq, Repr

/-- `-?\d+` (the chat-id group of the `date:` payload regex). -/
def signedDigits (l : List Char) : Bool :=
  match l with
  | '-' :: rest => decide (rest ≠ []) && rest.all Char.isDigit
  | rest => decide (rest ≠ []) && rest.all Char.isDigit

def signedVal (l : List Char) : Int :=
  match l with
  | '-' :: rest => -(Int.ofNat (natOfDigits rest))
  | rest => Int.ofNat (natOfDigits rest)

/-- `re.match(r"^date:(gen|topics):(-?\d+):(today|yest|pick)$", data)`.
None of the component groups can contain `:`, so the regex is equivalent to
an exact four-way split on `:` (Python's `$` would also accept one trailing
newline, which no bot-generated payload carries). -/
def matchDateCb (data : String) : Option (String × Int × String) :=
  match data.splitOn ":" with
  | [dt, m, c, ch] =>
    if dt == "date" && (m == "gen" || m == "topics")
        && (ch == "today" || ch == "yest" || ch == "pick")
        && signedDigits c.data then
      some (m, signedVal c.data, ch)
    else none
  | _ => none

def refreshEmptyText (db : Db) : String :=
  let c := db_counts db
  "🔄 Atualizei.\n\nAinda não vi nenhum grupo.\n"
    ++ "Coloque o bot nos grupos e mande mensagens novas.\n\n"
    ++ "Status: " ++ toString c.1 ++ " grupos, " ++ toString c.2.1
    ++ " tópicos, " ++ toString c.2.2 ++ " mensagens."

def refreshFullText (db : Db) : String :=
  let c := db_counts db
  "🔄 Atualizei.\nStatus: " ++ toString c.1 ++ " grupos, " ++ toString c.2.1
    ++ " tópicos, " ++ toString c.2.2 ++ " mensagens.\n\n"
    ++ "Escolha o grupo para resumir:"

def chatsEmptyText (db : Db) : String :=
  let c := db_counts db
  "Ainda não vi nenhum grupo.\n"
    ++ "Coloque o bot nos grupos e mande mensagens novas.\n\n"
    ++ "Status: " ++ toString c.1 ++ " grupos, " ++ toString c.2.1
    ++ " tópicos, " ++ toString c.2.2 ++ " mensagens."

/-- The tail of `on_callback` once the payload is known (everything after
the authorization prefix). -/
def callbackDispatch
    (gen : String → Except GenErr (Option String)) (db : Db)
    (aw : Option PendingSel) (now : DateTime) (data : String) : HRes :=
  if data == "back:main" then
    { HRes.base db aw with answered := true, edits := ["Painel de Resumos ✅"] }
  else if data == "menu:refresh" then
    if (list_chats db.chat_registry).isEmpty then
      { HRes.base db aw with answered := true, edits := [refreshEmptyText db] }
    else
      { HRes.base db aw with answered := true, edits := [refreshFullText db] }
  else if data == "menu:chats" then
    if (list_chats db.chat_registry).isEmpty then
      { HRes.base db aw with answered := true, edits := [chatsEmptyText db] }
    else
      { HRes.base db aw with answered := true,
                             edits := ["Escolha o grupo para resumir:"] }
  else if data.startsWith "pickchat:" then
    match (data.splitOn ":").get? 1 with
    | none =>
      { HRes.base db aw with answered := true,
                             raised := some PyErr.indexError }
    | some p1 =>
      match pyInt p1 with
      | Except.error _ =>
        { HRes.base db aw with answered := true,
                               raised := some PyErr.valueError }
      | Except.ok c =>
        { HRes.base db aw with answered := true,
                               edits := ["Grupo selecionado: " ++ toString c ++ "\nEscolha o tipo:"] }
  else if data.startsWith "mode:general:" then
    match (data.splitOn ":").get? 2 with
    | none =>
      { HRes.base db aw with answered := true,
                             raised := some PyErr.indexError }
    | some p2 =>
      match pyInt p2 with
      | Except.error _ =>
        { HRes.base db aw with answered := true,
                               raised := some PyErr.valueError }
      | Except.ok _ =>
        { HRes.base db aw with answered := true,
                               edits := ["Resumo GERAL — escolha a data:"] }
  else if data.startsWith "mode:topics:" then
    match (data.splitOn ":").get? 2 with
    | none =>
      { HRes.base db aw with answered := true,
                             raised := some PyErr.indexError }
    | some p2 =>
      match pyInt p2 with
      | Except.error _ =>
        { HRes.base db aw with answered := true,
                               raised := some PyErr.valueError }
      | Except.ok _ =>
        { HRes.base db aw with answered := true,
                               edits := ["Resumo por TÓPICO — escolha a data:"] }
  else
    match matchDateCb data with
    | some (mode, c, choice) =>
      if choice == "pick" then
        { HRes.base db (some ⟨mode, c⟩) with answered := true,
                                             edits := ["Digite a data no formato DD/MM/AAAA (ex: 12/02/2026)."] }
      else
        let d := if choice == "today" then now.toDate else now.toDate.prev
        if mode == "gen" then
          let eff := generate_and_send_general gen db c d
          match eff.raised with
          | some e =>
            ⟨db, aw, [], eff.sent,
              ["Gerando resumo geral… (vou enviar aqui no Resumo RGL)"], true,
              eff.apiCalls, some (PyErr.genError e)⟩
          | none =>
            ⟨db, aw, [], eff.sent,
              ["Gerando resumo geral… (vou enviar aqui no Resumo RGL)",
                "✅ Enviado."], true, eff.apiCalls, none⟩
        else if mode == "topics" then
          let tids := list_threads_in_chat_for_day db.messages c d
          if tids.isEmpty then
            { HRes.base db aw with
              answered := true
              edits :=
                ["Não achei mensagens nessa data.\n"
                  ++ "Obs: o bot só pega mensagens novas (sem histórico antigo)."] }
          else
            { HRes.base db aw with answered := true,
                                   edits := ["Escolha um tópico (" ++ fmtDate d ++ "):"] }
        else
          { HRes.base db aw with answered := true,
                                 edits := ["Ação não reconhecida."] }
    | none =>
      if data.startsWith "picktid:" then
        match (data.splitOn ":").get? 1 with
        | none =>
          { HRes.base db aw with answered := true,
                                 raised := some PyErr.indexError }
        | some p1 =>
          match pyInt p1 with
          | Except.error _ =>
            { HRes.base db aw with answered := true,
                                   raised := some PyErr.valueError }
          | Except.ok c =>
            match (data.splitOn ":").get? 2 with
            | none =>
              { HRes.base db aw with answered := true,
                                     raised := some PyErr.indexError }
            | some p2 =>
              match pyInt p2 with
              | Except.error _ =>
                { HRes.base db aw with answered := true,
                                       raised := some PyErr.valueError }
              | Except.ok tid =>
                match (data.splitOn ":").get? 3 with
                | none =>
                  { HRes.base db aw with answered := true,
                                         raised := some PyErr.indexError }
                | some p3 =>
                  match dateFromIso p3 with
                  | Except.error _ =>
                    { HRes.base db aw with answered := true,
                                           raised := some PyErr.valueError }
                  | Except.ok d =>
                    let eff := generate_and_send_topic gen db c tid d
                    match eff.raised with
                    | some e =>
                      ⟨db, aw, [], eff.sent,
                        ["Gerando resumo do tópico… (vou enviar aqui no Resumo RGL)"],
                        true, eff.apiCalls, some (PyErr.genError e)⟩
                    | none =>
                      ⟨db, aw, [], eff.sent,
                        ["Gerando resumo do tópico… (vou enviar aqui no Resumo RGL)",
                          "✅ Enviado."], true, eff.apiCalls, none⟩
      else
        { HRes.base db aw with answered := true,
                               edits := ["Ação não reconhecida."] }

/-- `on_callback`: `q.answer()` always runs first; then the control-chat
check (a silent return) and the operator check (an error edit). -/
def on_callback (cfg : Config)
    (gen : String → Except GenErr (Option String)) (db : Db)
    (aw : Option PendingSel) (upd : TgUpdate) (q : CbQuery)
    (now : DateTime) : HRes :=
  match q.msgChatId with
  | none =>
    { HRes.base db aw with answered := true,
                           raised := some PyErr.attributeError }
  | some qc =>
    if qc ≠ cfg.targetChatId then
      { HRes.base db aw with answered := true }
    else if !is_admin_user cfg upd then
      { HRes.base db aw with answered := true, edits := ["Sem permissão."] }
    else
      callbackDispatch gen db aw now (q.data.getD "")

/-! ## Helper lemmas -/

theorem rowLe_trans {a b c : Row} (h₁ : rowLe a b = true)
    (h₂ : rowLe b c = true) : rowLe a c = true :=
  DateTime.leb_trans h₁ h₂

theorem rowLe_total (a b : Row) : rowLe a b || rowLe b a := by
  rcases DateTime.leb_total a.created_at b.created_at with h | h <;>
    simp [rowLe, h]

/-- Row sets produced by `capture` only grow, and every appended row belongs
to the update's chat, which the guard keeps distinct from the control
chat. -/
theorem capture_messages_mem {cfg : Config} {upd : TgUpdate}
    {now : DateTime} {db : Db} {r : Row}
    (h : r ∈ (capture cfg upd now db).messages) :
    r ∈ db.messages ∨
      (r.chat_id = upd.effective_chat.id ∧
        upd.effective_chat.id ≠ cfg.targetChatId) := by
  unfold capture at h
  split at h
  · exact Or.inl h
  · split at h
    · exact Or.inl h
    · split at h
      · exact Or.inl h
      · split at h
        · exact Or.inl h
        · rename_i hc
          simp only [save_message, upsert_chat, List.mem_append,
            List.mem_singleton] at h
          rcases h with h | h
          · exact Or.inl h
          · refine Or.inr ⟨by rw [h], ?_⟩
            simpa [beq_iff_eq] using hc

theorem captureMany_chat_ne {cfg : Config} (evs : List (TgUpdate × DateTime))
    (db : Db) (h : ∀ r ∈ db.messages, r.chat_id ≠ cfg.targetChatId) :
    ∀ r ∈ (captureMany cfg evs db).messages, r.chat_id ≠ cfg.targetChatId := by
  induction evs generalizing db with
  | nil => exact h
  | cons e evs ih =>
    intro r hr
    refine ih (capture cfg e.1 e.2 db) ?_ r hr
    intro r' hr'
    rcases capture_messages_mem hr' with hmem | ⟨heq, hne⟩
    · exact h r' hmem
    · rw [heq]; exact hne

/-! ## Shared concrete examples (used by witnesses and counterexamples) -/

def cfgEx : Config := ⟨999, none, ""⟩

def tEx : DateTime := ⟨2026, 2, 15, 12, 30, 0, 0⟩

def dEx : Date := ⟨2026, 2, 15⟩

def userEx : TgUser := ⟨7, "Ana Silva"⟩

def groupChatEx : TgChat := ⟨100, ChatType.group, some "Grupo X", none⟩

/-- An ordinary group message update with the given text. -/
def groupUpd (t : String) : TgUpdate :=
  ⟨some ⟨some t, none⟩, groupChatEx, some userEx⟩

/-! ## C10 — `is_admin_user` -/

/-- C10: with `ADMIN_USER_ID` unset the check authorizes every sender; with
it set it authorizes exactly the sender whose stringified id equals the
configured value (the comparison the source performs), and a missing sender
yields `false` rather than an exception. -/
theorem C10_is_admin_user :
    (∀ (cfg : Config) (upd : TgUpdate), cfg.adminUserId = "" →
      is_admin_user cfg upd = true)
    ∧ (∀ (cfg : Config) (upd : TgUpdate) (u : TgUser),
        cfg.adminUserId ≠ "" → upd.effective_user = some u →
        (is_admin_user cfg upd = true ↔ toString u.id = cfg.adminUserId))
    ∧ (∀ (cfg : Config) (upd : TgUpdate), cfg.adminUserId ≠ "" →
        upd.effective_user = none → is_admin_user cfg upd = false) := by
  refine ⟨fun cfg upd h => ?_, fun cfg upd u h hu => ?_, fun cfg upd h hu => ?_⟩
  · simp [is_admin_user, h]
  · simp [is_admin_user, h, hu]
  · simp [is_admin_user, h, hu]

theorem C10_is_admin_user_witness :
    is_admin_user ⟨999, none, ""⟩ (groupUpd "oi") = true
      ∧ (is_admin_user ⟨999, none, "7"⟩ (groupUpd "oi") = true ↔
          toString (7 : Int) = "7")
      ∧ is_admin_user ⟨999, none, "7"⟩ ⟨some ⟨some "oi", none⟩, groupChatEx, none⟩
          = false :=
  ⟨C10_is_admin_user.1 ⟨999, none, ""⟩ (groupUpd "oi") rfl,
   C10_is_admin_user.2.1 ⟨999, none, "7"⟩ (groupUpd "oi") userEx
     (by decide) rfl,
   C10_is_admin_user.2.2 ⟨999, none, "7"⟩
     ⟨some ⟨some "oi", none⟩, groupChatEx, none⟩ (by decide) rfl⟩

/-! ## C2 — empty / whitespace-only text -/

/-- C2 counterexample: a whitespace-only (hence non-empty) text passes the
`not update.message.text` truthiness check, so `capture` does persist it —
refuting the claim that whitespace-only messages are never persisted.  Only
absent/empty text is rejected. -/
theorem C2_counterexample :
    pyStrip " " = "" ∧
    (capture cfgEx (groupUpd " ") tEx emptyDb).messages =
      [⟨0, 100, none, some 7, "Ana Silva", " ", tEx⟩] := by
  constructor
  · rfl
  · rfl

/-- C2 (amended): an update with no message, a `None` text, or an
empty-string text is never persisted — `capture` leaves the database
untouched.  (The whitespace-only case is excluded: it is persisted, see the
counterexample.) -/
theorem C2_empty_text_never_persisted (cfg : Config) (upd : TgUpdate)
    (now : DateTime) (db : Db)
    (h : upd.message = none ∨
      ∃ m, upd.message = some m ∧ (m.text = none ∨ m.text = some "")) :
    capture cfg upd now db = db := by
  rcases h with h | ⟨m, hm, h | h⟩
  · simp [capture, h]
  · simp [capture, hm, h]
  · simp [capture, hm, h]

theorem C2_empty_text_never_persisted_witness :
    capture cfgEx ⟨some ⟨some "", none⟩, groupChatEx, some userEx⟩ tEx emptyDb
      = emptyDb :=
  C2_empty_text_never_persisted cfgEx
    ⟨some ⟨some "", none⟩, groupChatEx, some userEx⟩ tEx emptyDb
    (Or.inr ⟨⟨some "", none⟩, rfl, Or.inr rfl⟩)

/-! ## C4 — no chat-type filter in `capture` -/

/-- A private-chat update with non-empty text. -/
def privUpd : TgUpdate :=
  ⟨some ⟨some "oi", none⟩, ⟨55, ChatType.privateChat, none, some "ana_priv"⟩,
    some userEx⟩

/-- C4 counterexample: `capture` performs no chat-type check, so a message
from a private chat (not a group/supergroup) is persisted — refuting the
claim that such events are rejected. -/
theorem C4_counterexample :
    privUpd.effective_chat.ctype = ChatType.privateChat ∧
    (capture cfgEx privUpd tEx emptyDb).messages =
      [⟨0, 55, none, some 7, "Ana Silva", "oi", tEx⟩] := by
  constructor
  · rfl
  · rfl

/-- The `user_name` fallback of `capture`. -/
def effectiveUname (user : Option TgUser) : String :=
  match user with
  | some u => u.full_name
  | none => "SemNome"

/-- C4 (amended): `capture` never inspects the chat type.  Any update
carrying a message with non-empty text from a non-control chat is persisted
identically for every chat type — group, supergroup, private chat or
channel alike.  (Actual channel posts are dropped only because they carry no
`message` object at all.) -/
theorem C4_no_chat_type_check (cfg : Config) (ty : ChatType) (cid : Int)
    (title username : Option String) (user : Option TgUser) (t : String)
    (tid : Option Int) (now : DateTime) (db : Db)
    (ht : t ≠ "") (hc : cid ≠ cfg.targetChatId) :
    (capture cfg ⟨some ⟨some t, tid⟩, ⟨cid, ty, title, username⟩, user⟩ now
        db).messages =
      db.messages ++
        [⟨db.messages.length, cid, tid, user.map TgUser.id,
          effectiveUname user, t, now⟩] := by
  cases user <;>
    simp [capture, ht, beq_iff_eq, hc, upsert_chat, save_message,
      effectiveUname]

theorem C4_no_chat_type_check_witness :
    (capture cfgEx
        ⟨some ⟨some "oi", none⟩, ⟨55, ChatType.privateChat, none, none⟩, none⟩
        tEx emptyDb).messages =
      [⟨0, 55, none, none, "SemNome", "oi", tEx⟩] := by
  have h := C4_no_chat_type_check cfgEx ChatType.privateChat 55 none none none
    "oi" none tEx emptyDb (by decide) (by decide)
  simpa [emptyDb, effectiveUname] using h

/-! ## C3 — the control chat is never persisted -/

/-- C3: capture is a no-op on the control chat, and hence a day-scoped
retrieval for the control chat over any database produced by the capture
handler returns zero rows, however many events arrived. -/
theorem C3_control_chat_never_persisted :
    (∀ (cfg : Config) (upd : TgUpdate) (now : DateTime) (db : Db),
        upd.effective_chat.id = cfg.targetChatId →
        capture cfg upd now db = db)
    ∧ (∀ (cfg : Config) (evs : List (TgUpdate × DateTime)) (d : Date)
        (limit : Nat),
        fetch_general (captureMany cfg evs emptyDb).messages
          cfg.targetChatId d limit = []) := by
  constructor
  · intro cfg upd now db h
    unfold capture
    split
    · rfl
    · split
      · rfl
      · rename_i t _
        by_cases h0 : t = ""
        · rw [if_pos h0]
        · rw [if_neg h0, if_pos (by simp [h])]
  · intro cfg evs d limit
    have hall : ∀ r ∈ (captureMany cfg evs emptyDb).messages,
        r.chat_id ≠ cfg.targetChatId :=
      captureMany_chat_ne evs emptyDb (by intro r hr; cases hr)
    have hfil :
        (captureMany cfg evs emptyDb).messages.filter
          (dayChatFilter cfg.targetChatId d) = [] := by
      rw [List.filter_eq_nil_iff]
      intro r hr
      simp [dayChatFilter, beq_iff_eq, hall r hr]
    simp [fetch_general, fetch_general_rows, hfil]

theorem C3_control_chat_never_persisted_witness :
    capture ⟨100, none, ""⟩ (groupUpd "oi") tEx emptyDb = emptyDb ∧
    fetch_general
        (captureMany cfgEx [(groupUpd "a", tEx), (groupUpd "b", tEx)]
          emptyDb).messages cfgEx.targetChatId dEx 8000 = [] :=
  ⟨C3_control_chat_never_persisted.1 ⟨100, none, ""⟩ (groupUpd "oi") tEx
      emptyDb rfl,
   C3_control_chat_never_persisted.2 cfgEx
      [(groupUpd "a", tEx), (groupUpd "b", tEx)] dEx 8000⟩

/-! ## C9 — chat-registry upsert -/

/-- Effect of the `DO UPDATE` arm of the upsert on a registry with unique
keys and at least one matching row. -/
theorem upsertMap_spec (cid : Int) (t : String) (s : DateTime) :
    ∀ (l : List ChatRegRow),
      (l.map ChatRegRow.chat_id).Nodup →
      l.any (fun r => r.chat_id == cid) = true →
      ((l.map (fun r =>
          if r.chat_id == cid then (⟨cid, t, s⟩ : ChatRegRow) else r)).filter
            (fun r => r.chat_id == cid) = [⟨cid, t, s⟩]
        ∧ (l.map (fun r =>
            if r.chat_id == cid then (⟨cid, t, s⟩ : ChatRegRow) else r)).filter
              (fun r => !(r.chat_id == cid))
            = l.filter (fun r => !(r.chat_id == cid))
        ∧ ((l.map (fun r =>
            if r.chat_id == cid then (⟨cid, t, s⟩ : ChatRegRow) else r)).map
              ChatRegRow.chat_id).Nodup) := by
  intro l
  induction l with
  | nil => intro _ hany; simp at hany
  | cons r rs ih =>
    intro h hany
    simp only [List.map_cons, List.nodup_cons] at h
    by_cases hr : (r.chat_id == cid) = true
    · have hcid : r.chat_id = cid := by simpa [beq_iff_eq] using hr
      have hnone : ∀ r' ∈ rs, ¬((r'.chat_id == cid) = true) := by
        intro r' hr' hcontra
        have : r'.chat_id = cid := by simpa [beq_iff_eq] using hcontra
        exact h.1 (by
          have he : r.chat_id = r'.chat_id := by rw [hcid, this]
          rw [he]
          exact List.mem_map_of_mem _ hr')
      have hmapid : rs.map (fun r' =>
          if r'.chat_id == cid then (⟨cid, t, s⟩ : ChatRegRow) else r') = rs := by
        rw [List.map_congr_left (fun a ha => if_neg (hnone a ha))]
        exact List.map_id' rs
      refine ⟨?_, ?_, ?_⟩
      · simp only [List.map_cons, if_pos hr, hmapid]
        rw [List.filter_cons_of_pos (by simp), List.filter_eq_nil_iff.mpr hnone]
      · simp only [List.map_cons, if_pos hr, hmapid]
        rw [List.filter_cons_of_neg (by simp), List.filter_cons_of_neg (by simp [hr])]
      · simp only [List.map_cons, if_pos hr, hmapid]
        refine List.nodup_cons.mpr ⟨?_, h.2⟩
        intro hc
        rcases List.mem_map.mp hc with ⟨r', hr', he⟩
        exact hnone r' hr' (by simp [beq_iff_eq, he])
    · have hany' : rs.any (fun r' => r'.chat_id == cid) = true := by
        simpa [List.any_cons, hr] using hany
      have ihh := ih h.2 hany'
      refine ⟨?_, ?_, ?_⟩
      · simp only [List.map_cons, if_neg hr]
        rw [List.filter_cons_of_neg (by simp [hr])]
        exact ihh.1
      · simp only [List.map_cons, if_neg hr]
        rw [List.filter_cons_of_pos (by simp [hr]),
          List.filter_cons_of_pos (by simp [hr])]
        rw [ihh.2.1]
      · simp only [List.map_cons, if_neg hr]
        refine List.nodup_cons.mpr ⟨?_, ihh.2.2⟩
        intro hc
        rcases List.mem_map.mp hc with ⟨r'', hr'', he⟩
        rcases List.mem_map.mp hr'' with ⟨r', hr', he'⟩
        by_cases hm : (r'.chat_id == cid) = true
        · rw [← he'] at he
          rw [if_pos hm] at he
          exact hr (by simp [beq_iff_eq, ← he])
        · rw [← he'] at he
          rw [if_neg hm] at he
          exact h.1 (by rw [← he]; exact List.mem_map_of_mem _ hr')

/-- Specification of a single `upsert_chat` on a registry with unique keys:
afterwards there is exactly one row for the key, carrying the new title and
timestamp; all other rows are untouched; keys stay unique. -/
theorem upsertReg_spec (l : List ChatRegRow) (cid : Int) (t : String)
    (s : DateTime) (h : (l.map ChatRegRow.chat_id).Nodup) :
    ((upsertReg l cid t s).filter (fun r => r.chat_id == cid) = [⟨cid, t, s⟩]
      ∧ (upsertReg l cid t s).filter (fun r => !(r.chat_id == cid))
          = l.filter (fun r => !(r.chat_id == cid))
      ∧ ((upsertReg l cid t s).map ChatRegRow.chat_id).Nodup) := by
  unfold upsertReg
  by_cases hany : l.any (fun r => r.chat_id == cid) = true
  · rw [if_pos hany]
    exact upsertMap_spec cid t s l h hany
  · rw [if_neg hany]
    have hnone : ∀ r ∈ l, ¬((r.chat_id == cid) = true) :=
      List.any_eq_false.mp (by simpa using hany)
    refine ⟨?_, ?_, ?_⟩
    · rw [List.filter_append, List.filter_eq_nil_iff.mpr hnone]
      simp
    · rw [List.filter_append]
      simp
    · rw [List.map_append]
      rw [List.nodup_append]
      refine ⟨h, by simp, ?_⟩
      intro k hk hk'
      simp only [List.map_cons, List.map_nil, List.mem_singleton] at hk'
      rcases List.mem_map.mp hk with ⟨r, hr, he⟩
      exact hnone r hr (by simp [beq_iff_eq, he, hk'])

/-- C9: the chat-directory upsert is idempotent with last-writer-wins
semantics — upserting the same `chat_id` twice (with possibly different
titles and timestamps) leaves exactly one registry row for that id, carrying
the title and `last_seen` of the second upsert; rows of other chat ids and
the other tables are unchanged, and registry keys stay unique. -/
theorem C9_upsert_chat_last_writer_wins (db : Db) (cid : Int)
    (t1 t2 : String) (s1 s2 : DateTime)
    (h : (db.chat_registry.map ChatRegRow.chat_id).Nodup) :
    ((upsert_chat (upsert_chat db cid t1 s1) cid t2 s2).chat_registry.filter
        (fun r => r.chat_id == cid) = [⟨cid, t2, s2⟩]
      ∧ (upsert_chat (upsert_chat db cid t1 s1) cid t2 s2).chat_registry.filter
          (fun r => !(r.chat_id == cid))
          = db.chat_registry.filter (fun r => !(r.chat_id == cid))
      ∧ ((upsert_chat (upsert_chat db cid t1 s1) cid t2 s2).chat_registry.map
          ChatRegRow.chat_id).Nodup
      ∧ (upsert_chat (upsert_chat db cid t1 s1) cid t2 s2).messages
          = db.messages
      ∧ (upsert_chat (upsert_chat db cid t1 s1) cid t2 s2).topic_alias
          = db.topic_alias) := by
  have h1 := upsertReg_spec db.chat_registry cid t1 s1 h
  have h2 := upsertReg_spec (upsertReg db.chat_registry cid t1 s1) cid t2 s2
    h1.2.2
  refine ⟨?_, ?_, ?_, rfl, rfl⟩
  · simpa [upsert_chat] using h2.1
  · simp only [upsert_chat]
    rw [h2.2.1, h1.2.1]
  · simpa [upsert_chat] using h2.2.2

theorem C9_upsert_chat_last_writer_wins_witness :
    (upsert_chat (upsert_chat ⟨[], [⟨5, "Outro", tEx⟩], []⟩ 100 "Velho" tEx)
        100 "Novo" ⟨2026, 2, 16, 8, 0, 0, 0⟩).chat_registry.filter
      (fun r => r.chat_id == 100) = [⟨100, "Novo", ⟨2026, 2, 16, 8, 0, 0, 0⟩⟩] :=
  (C9_upsert_chat_last_writer_wins ⟨[], [⟨5, "Outro", tEx⟩], []⟩ 100 "Velho"
    "Novo" tEx ⟨2026, 2, 16, 8, 0, 0, 0⟩ (by decide)).1

/-! ## C7 — authorization behaviour of commands and callbacks -/

/-- A configuration with the operator identity set to user id 1. -/
def cfgAdm : Config := ⟨999, none, "1"⟩

/-- A `/start` update issued inside the control chat by user 2, who is not
the configured operator. -/
def nonAdminStartUpd : TgUpdate :=
  ⟨some ⟨some "/start", none⟩, ⟨999, ChatType.supergroup, some "Resumo RGL", none⟩,
    some ⟨2, "Bob Lima"⟩⟩

/-- C7 counterexample: a non-operator issuing the menu-start command inside
the control chat receives a `"Sem permissão."` reply — one outbound message,
refuting the claim that such events are silently dropped with zero outbound
messages. -/
theorem C7_counterexample :
    (cmd_start cfgAdm emptyDb none nonAdminStartUpd).replies
      = ["Sem permissão."] := by
  rfl

/-- C7 (amended): events outside the control chat are silently dropped by
`cmd_start`/`cmd_status` and by callbacks (which are still answered), with
no state mutation; but a non-operator inside the control chat is answered
with a visible `"Sem permissão."` reply or edit; `cmd_alias` replies even
outside the control chat; and `cmd_id` is entirely unauthenticated and
echoes identifiers to any sender in any chat.  In all of these cases no
database or session state is mutated. -/
theorem C7_auth_behavior :
    (∀ (cfg : Config) (db : Db) (aw : Option PendingSel) (upd : TgUpdate),
        upd.effective_chat.id ≠ cfg.targetChatId →
        cmd_start cfg db aw upd = HRes.base db aw)
    ∧ (∀ (cfg : Config) (db : Db) (aw : Option PendingSel) (upd : TgUpdate),
        upd.effective_chat.id ≠ cfg.targetChatId →
        cmd_status cfg db aw upd = HRes.base db aw)
    ∧ (∀ (cfg : Config) (db : Db) (aw : Option PendingSel) (upd : TgUpdate)
        (m : TgMessage),
        upd.effective_chat.id = cfg.targetChatId →
        is_admin_user cfg upd = false → upd.message = some m →
        cmd_start cfg db aw upd
          = { HRes.base db aw with replies := ["Sem permissão."] })
    ∧ (∀ (cfg : Config) (db : Db) (aw : Option PendingSel) (upd : TgUpdate)
        (m : TgMessage),
        upd.effective_chat.id = cfg.targetChatId →
        is_admin_user cfg upd = false → upd.message = some m →
        cmd_status cfg db aw upd
          = { HRes.base db aw with replies := ["Sem permissão."] })
    ∧ (∀ (cfg : Config) (db : Db) (aw : Option PendingSel) (upd : TgUpdate)
        (m : TgMessage),
        upd.effective_chat.id ≠ cfg.targetChatId → upd.message = some m →
        cmd_alias cfg db aw upd
          = { HRes.base db aw with
              replies := ["Use este comando no Resumo RGL."] })
    ∧ (∀ (cfg : Config) (db : Db) (aw : Option PendingSel) (upd : TgUpdate)
        (m : TgMessage),
        upd.effective_chat.id = cfg.targetChatId →
        is_admin_user cfg upd = false → upd.message = some m →
        cmd_alias cfg db aw upd
          = { HRes.base db aw with replies := ["Sem permissão."] })
    ∧ (∀ (cfg : Config) (gen : String → Except GenErr (Option String))
        (db : Db) (aw : Option PendingSel) (upd : TgUpdate) (q : CbQuery)
        (qc : Int) (now : DateTime),
        q.msgChatId = some qc → qc ≠ cfg.targetChatId →
        on_callback cfg gen db aw upd q now
          = { HRes.base db aw with answered := true })
    ∧ (∀ (cfg : Config) (gen : String → Except GenErr (Option String))
        (db : Db) (aw : Option PendingSel) (upd : TgUpdate) (q : CbQuery)
        (qc : Int) (now : DateTime),
        q.msgChatId = some qc → qc = cfg.targetChatId →
        is_admin_user cfg upd = false →
        on_callback cfg gen db aw upd q now
          = { HRes.base db aw with answered := true,
                                   edits := ["Sem permissão."] })
    ∧ (∀ (db : Db) (aw : Option PendingSel) (upd : TgUpdate) (m : TgMessage)
        (u : TgUser),
        upd.message = some m → upd.effective_user = some u →
        cmd_id db aw upd
          = { HRes.base db aw with replies :=
              ["user_id: " ++ toString u.id
                ++ "\nchat_id: " ++ toString upd.effective_chat.id
                ++ "\nthread_id: " ++ optIntStr m.message_thread_id] }) := by
  refine ⟨?_, ?_, ?_, ?_, ?_, ?_, ?_, ?_, ?_⟩
  · intro cfg db aw upd h
    simp [cmd_start, h]
  · intro cfg db aw upd h
    simp [cmd_status, h]
  · intro cfg db aw upd m h ha hm
    simp [cmd_start, h, ha, hm]
  · intro cfg db aw upd m h ha hm
    simp [cmd_status, h, ha, hm]
  · intro cfg db aw upd m h hm
    simp [cmd_alias, h, hm]
  · intro cfg db aw upd m h ha hm
    simp [cmd_alias, h, ha, hm]
  · intro cfg gen db aw upd q qc now hq h
    simp [on_callback, hq, h]
  · intro cfg gen db aw upd q qc now hq h ha
    simp [on_callback, hq, h, ha]
  · intro db aw upd m u hm hu
    simp [cmd_id, hm, hu]

theorem C7_auth_behavior_witness :
    cmd_start cfgAdm emptyDb none nonAdminStartUpd
      = { HRes.base emptyDb none with replies := ["Sem permissão."] } :=
  C7_auth_behavior.2.2.1 cfgAdm emptyDb none nonAdminStartUpd
    ⟨some "/start", none⟩ rfl (by decide) rfl

/-! ## C5 — generation-service failures -/

/-- A database holding one captured message for chat 100 on 2026-02-15. -/
def C5db : Db :=
  ⟨[⟨0, 100, none, some 7, "Ana Silva", "oi", tEx⟩], [⟨100, "Grupo X", tEx⟩], []⟩

/-- A generation oracle that always fails with quota exhaustion. -/
def genFail : String → Except GenErr (Option String) :=
  fun _ => Except.error GenErr.rateLimit

/-- Concrete evaluation of the day-scoped retrieval over `C5db`. -/
theorem C5db_fetch :
    fetch_general C5db.messages 100 dEx 8000 = [(0, "Ana Silva", "oi")] := by
  have h1 : C5db.messages.filter (dayChatFilter 100 dEx) = C5db.messages := by
    decide
  unfold fetch_general fetch_general_rows
  rw [h1]
  simp [C5db]

/-- C5 counterexample: when the external generation call fails, the error
escapes `generate_and_send_general` uncaught and nothing at all is sent to
the control chat — refuting the claim that the error is caught, classified
and reported as a failure notice. -/
theorem C5_counterexample :
    (generate_and_send_general genFail C5db 100 dEx).raised
        = some GenErr.rateLimit
      ∧ (generate_and_send_general genFail C5db 100 dEx).sent = [] := by
  constructor
  · simp [generate_and_send_general, C5db_fetch, genFail]
  · simp [generate_and_send_general, C5db_fetch, genFail]

/-- C5 (amended): neither generator contains any error handling.  When the
external call fails while messages exist for the selected slice, the
exception propagates out of the generator unchanged, no message (in
particular no failure notice) is sent to the control chat, and the API was
invoked exactly once — so the call is indeed never retried, but the error is
never caught or classified either. -/
theorem C5_errors_propagate_uncaught :
    (∀ (gen : String → Except GenErr (Option String)) (db : Db) (cid : Int)
        (d : Date) (e : GenErr),
        gen (prompt_general d cid db.topic_alias
            (fetch_general db.messages cid d 8000)) = Except.error e →
        fetch_general db.messages cid d 8000 ≠ [] →
        ((generate_and_send_general gen db cid d).raised = some e
          ∧ (generate_and_send_general gen db cid d).sent = []
          ∧ (generate_and_send_general gen db cid d).apiCalls
              = [prompt_general d cid db.topic_alias
                  (fetch_general db.messages cid d 8000)]))
    ∧ (∀ (gen : String → Except GenErr (Option String)) (db : Db)
        (cid tid : Int) (d : Date) (e : GenErr),
        gen (prompt_topic d (topicLabel db.topic_alias cid tid)
            (fetch_thread db.messages cid tid d 6000)) = Except.error e →
        fetch_thread db.messages cid tid d 6000 ≠ [] →
        ((generate_and_send_topic gen db cid tid d).raised = some e
          ∧ (generate_and_send_topic gen db cid tid d).sent = []
          ∧ (generate_and_send_topic gen db cid tid d).apiCalls
              = [prompt_topic d (topicLabel db.topic_alias cid tid)
                  (fetch_thread db.messages cid tid d 6000)])) := by
  constructor
  · intro gen db cid d e hgen hne
    have hemp : (fetch_general db.messages cid d 8000).isEmpty = false := by
      simpa [List.isEmpty_iff] using hne
    simp [generate_and_send_general, hemp, hgen]
  · intro gen db cid tid d e hgen hne
    have hemp : (fetch_thread db.messages cid tid d 6000).isEmpty = false := by
      simpa [List.isEmpty_iff] using hne
    simp [generate_and_send_topic, hemp, hgen]

theorem C5_errors_propagate_uncaught_witness :
    (generate_and_send_general genFail C5db 100 dEx).raised
        = some GenErr.rateLimit
      ∧ (generate_and_send_general genFail C5db 100 dEx).sent = []
      ∧ (generate_and_send_general genFail C5db 100 dEx).apiCalls
          = [prompt_general dEx 100 C5db.topic_alias
              (fetch_general C5db.messages 100 dEx 8000)] :=
  C5_errors_propagate_uncaught.1 genFail C5db 100 dEx GenErr.rateLimit rfl
    (by simp [C5db_fetch])

/-! ## C6 — date parsing -/

/-- C6 counterexample: `"31/13/2026"` matches the regex and then
`date(2026, 13, 31)` raises `ValueError` — the parser raises instead of
returning no date; and `"x12-02-2026"` is accepted although it is not the
strict `DD/MM/YYYY` format (embedded in text, hyphen separators). -/
theorem C6_counterexample :
    parse_date_from_text "31/13/2026" = Except.error ()
      ∧ parse_date_from_text "x12-02-2026"
          = Except.ok (some ⟨2026, 2, 12⟩) := by
  constructor
  · rfl
  · rfl

/-- C6 (amended): the parser searches for `DD`/`MM`/`YYYY` with `/` or `-`
separators anywhere in the text.  Unmatched input (e.g. `"abc"`) yields no
date, and the handler then re-prompts with the pending selection preserved;
a match that is not a valid calendar date (e.g. `"31/13/2026"`) raises a
`ValueError` that escapes the handler with no re-prompt (the pending
selection survives only because it is mutated after the parse); valid
matches are accepted even when embedded in longer text or written with
hyphens. -/
theorem C6_date_parsing_behavior :
    (parse_date_from_text "abc" = Except.ok none)
    ∧ (parse_date_from_text "31/13/2026" = Except.error ())
    ∧ (parse_date_from_text "12/02/2026" = Except.ok (some ⟨2026, 2, 12⟩))
    ∧ (parse_date_from_text "x12-02-2026" = Except.ok (some ⟨2026, 2, 12⟩))
    ∧ (∀ (cfg : Config) (gen : String → Except GenErr (Option String))
        (db : Db) (p : PendingSel) (upd : TgUpdate) (m : TgMessage),
        upd.effective_chat.id = cfg.targetChatId →
        is_admin_user cfg upd = true →
        upd.message = some m →
        parse_date_from_text (pyStrip (m.text.getD "")) = Except.ok none →
        on_text_in_resumo cfg gen db (some p) upd
          = { HRes.base db (some p) with
              replies := ["Formato inválido. Use DD/MM/AAAA."] })
    ∧ (∀ (cfg : Config) (gen : String → Except GenErr (Option String))
        (db : Db) (p : PendingSel) (upd : TgUpdate) (m : TgMessage),
        upd.effective_chat.id = cfg.targetChatId →
        is_admin_user cfg upd = true →
        upd.message = some m →
        parse_date_from_text (pyStrip (m.text.getD "")) = Except.error () →
        on_text_in_resumo cfg gen db (some p) upd
          = { HRes.base db (some p) with
              raised := some PyErr.valueError }) := by
  refine ⟨rfl, rfl, rfl, rfl, ?_, ?_⟩
  · intro cfg gen db p upd m hc ha hm hp
    simp [on_text_in_resumo, hc, ha, hm, hp]
  · intro cfg gen db p upd m hc ha hm hp
    simp [on_text_in_resumo, hc, ha, hm, hp]

theorem C6_date_parsing_behavior_witness :
    on_text_in_resumo cfgEx genFail emptyDb (some ⟨"gen", 100⟩)
        ⟨some ⟨some "abc", none⟩,
          ⟨999, ChatType.supergroup, some "Resumo RGL", none⟩, some userEx⟩
      = { HRes.base emptyDb (some ⟨"gen", 100⟩) with
          replies := ["Formato inválido. Use DD/MM/AAAA."] } :=
  C6_date_parsing_behavior.2.2.2.2.1 cfgEx genFail emptyDb ⟨"gen", 100⟩
    ⟨some ⟨some "abc", none⟩,
      ⟨999, ChatType.supergroup, some "Resumo RGL", none⟩, some userEx⟩
    ⟨some "abc", none⟩ rfl rfl rfl rfl

/-! ## C8 — prompt truncation -/

/-- A 350-character message text (exactly at the per-message threshold). -/
def C8text : String := String.mk (List.replicate 350 'a')

def C8row : Int × String × String := (0, "u", C8text)

def C8rows (n : Nat) : List (Int × String × String) := List.replicate n C8row

/-- The line the assembler produces for `C8row`. -/
def C8line : String := "u: " ++ C8text

theorem pyStrip_C8text : pyStrip C8text = C8text := by
  simp [pyStrip, C8text, List.dropWhile_replicate, List.reverse_replicate,
    isSpaceChar]

theorem lineOfRow_C8 : lineOfRow "u" C8text = some C8line := by
  rw [lineOfRow, pyStrip_C8text]
  rw [if_neg (by decide)]
  rw [truncate350, if_neg (by decide)]
  rfl

theorem linesForTid_C8 (n : Nat) :
    linesForTid (C8rows n) 0 = List.replicate n C8line := by
  unfold linesForTid C8rows
  rw [List.filterMap_replicate_of_some]
  simp [C8row, lineOfRow_C8]

theorem dedup_replicate_succ {α : Type} [DecidableEq α] (n : Nat) (a : α) :
    (List.replicate (n + 1) a).dedup = [a] := by
  induction n with
  | zero => simp
  | succ n ih =>
    rw [List.replicate_succ, List.dedup_cons_of_mem (by simp), ih]

theorem sortedTids_C8 (n : Nat) : sortedTids (C8rows (n + 1)) = [0] := by
  unfold sortedTids C8rows
  rw [List.map_replicate]
  show ((List.replicate (n + 1) C8row.1).dedup).mergeSort _ = [0]
  rw [dedup_replicate_succ]
  simp [C8row]

theorem promptBody_C8 (n : Nat) :
    promptBody [] 100 (C8rows (n + 1))
      = "SEM TÓPICO\n" ++ joinSep "\n" (List.replicate (n + 1) C8line) := by
  unfold promptBody
  rw [sortedTids_C8]
  show joinSep "\n\n---\n\n" [blockForTid [] 100 (C8rows (n + 1)) 0] = _
  rw [joinSep]
  unfold blockForTid topicTitle
  rw [if_pos (by decide), linesForTid_C8]
  rfl

theorem joinSep_cons_cons (sep x y : String) (xs : List String) :
    joinSep sep (x :: y :: xs) = x ++ sep ++ joinSep sep (y :: xs) := rfl

theorem joinSep_replicate_length_ge (sep s : String) (n : Nat) :
    n * s.length ≤ (joinSep sep (List.replicate n s)).length := by
  induction n with
  | zero => simp [joinSep]
  | succ n ih =>
    cases n with
    | zero => simp [joinSep]
    | succ m =>
      have heq : joinSep sep (List.replicate (m + 1 + 1) s)
          = s ++ sep ++ joinSep sep (List.replicate (m + 1) s) := by
        rw [List.replicate_succ]
        rw [List.replicate_succ]
        rw [joinSep_cons_cons]
      rw [heq]
      simp only [String.length_append]
      rw [Nat.succ_mul]
      omega

theorem C8line_length : C8line.length = 353 := by decide

/-- Growth of the assembled prompt: each additional 350-character message
contributes at least 353 characters and nothing ever truncates the total. -/
theorem C8_prompt_length_ge (n : Nat) :
    n * 353 ≤ (prompt_general dEx 100 [] (C8rows n)).length := by
  cases n with
  | zero => simp
  | succ m =>
    have hb := joinSep_replicate_length_ge "\n" C8line (m + 1)
    rw [C8line_length] at hb
    have : prompt_general dEx 100 [] (C8rows (m + 1))
        = promptHeaderGeneral dEx
          ++ ("SEM TÓPICO\n" ++ joinSep "\n" (List.replicate (m + 1) C8line)) := by
      rw [prompt_general, promptBody_C8]
    rw [this]
    simp only [String.length_append]
    omega

/-- C8 counterexample: forty 350-character messages assemble to a prompt of
more than 12000 characters that is exactly the fixed header followed by the
complete, untruncated body — no front truncation and no prefixed notice,
refuting the claimed overall size ceiling. -/
theorem C8_counterexample :
    12000 < (prompt_general dEx 100 [] (C8rows 40)).length
      ∧ prompt_general dEx 100 [] (C8rows 40)
          = promptHeaderGeneral dEx
            ++ ("SEM TÓPICO\n" ++ joinSep "\n" (List.replicate 40 C8line)) := by
  constructor
  · have h := C8_prompt_length_ge 40
    omega
  · rw [prompt_general, promptBody_C8]

/-- C8 (amended): per-message truncation to 350 characters plus an ellipsis
does happen (351 ≤ the claimed 300–500 band), but there is no overall prompt
ceiling: the prompt grows without bound with the number of retrieved
messages, and its front is always the fixed instruction header starting with
`"Data: "` — never a truncation notice. -/
theorem C8_truncation_behavior :
    (∀ t : String,
        (truncate350 t).length = if 350 < t.length then 351 else t.length)
    ∧ (∀ n : Nat, n * 353 ≤ (prompt_general dEx 100 [] (C8rows n)).length)
    ∧ (∀ (d : Date) (cid : Int) (als : List AliasRow)
        (rows : List (Int × String × String)),
        ∃ rest, prompt_general d cid als rows = "Data: " ++ rest) := by
  refine ⟨?_, C8_prompt_length_ge, ?_⟩
  · intro t
    by_cases h : 350 < t.length
    · rw [if_pos h, truncate350, if_pos h]
      simp only [String.length_append, pySlice]
      show (String.mk (t.data.take 350)).length + 1 = 351
      show (t.data.take 350).length + 1 = 351
      rw [List.length_take]
      have : t.data.length = t.length := rfl
      omega
    · rw [if_neg h, truncate350, if_neg h]
  · intro d cid als rows
    refine ⟨fmtDate d ++ (" (fuso -03:00)\n"
      ++ "Faça um RESUMO GERAL juntando TODOS os tópicos.\n\n"
      ++ "Quero em blocos:\n"
      ++ "1) Principais assuntos\n"
      ++ "2) Reclamações / problemas (quem + resumo)\n"
      ++ "3) Observações importantes\n"
      ++ "4) O que melhorar / próximas ações (itens práticos)\n"
      ++ "5) Quem mais participou (top 10)\n\n"
      ++ "Regras:\n"
      ++ "- Não invente.\n"
      ++ "- Não copie longos trechos; resuma.\n"
      ++ "- Se incerto, diga 'incerto'.\n\n"
      ++ "Mensagens do dia:\n") ++ promptBody als cid rows, ?_⟩
    simp only [prompt_general, promptHeaderGeneral, String.append_assoc]

/-! ## C1 — day-scoped retrieval -/

theorem DateTime.ltb_irrefl (x : DateTime) : DateTime.ltb x x = false := by
  rw [Bool.eq_false_iff]
  intro h
  rw [DateTime.ltb_iff] at h
  omega

/-- `timedelta(days=1)` strictly advances the calendar date in the
lexicographic (year, month, day) order, in every branch of the rollover. -/
theorem date_lt_next (d : Date) :
    d.year < d.next.year
      ∨ (d.year = d.next.year
          ∧ (d.month < d.next.month
              ∨ (d.month = d.next.month ∧ d.day < d.next.day))) := by
  unfold Date.next
  split
  · dsimp only
    omega
  · split
    · dsimp only
      omega
    · dsimp only
      omega

/-- One capture step of the C1 event family appends exactly one row. -/
theorem capture_groupUpd_oi (db : Db) (t : DateTime) :
    (capture cfgEx (groupUpd "oi") t db).messages
      = db.messages
        ++ [⟨db.messages.length, 100, none, some 7, "Ana Silva", "oi", t⟩] :=
  rfl

/-- Capture time of the `i`-th C1 event: noon of 2026-02-15, microsecond
`i`. -/
def C1time (i : Nat) : DateTime := ⟨2026, 2, 15, 12, 0, 0, i⟩

/-- The row the `i`-th C1 capture inserts. -/
def C1row (i : Nat) : Row := ⟨i, 100, none, some 7, "Ana Silva", "oi", C1time i⟩

/-- The database produced by capturing 8001 messages in chat 100 during
2026-02-15 (all distinct by microsecond and rowid). -/
def C1db : Db :=
  captureMany cfgEx
    ((List.range 8001).map (fun i => (groupUpd "oi", C1time i))) emptyDb

theorem C1state_messages (n : Nat) :
    (captureMany cfgEx
        ((List.range n).map (fun i => (groupUpd "oi", C1time i)))
        emptyDb).messages
      = (List.range n).map C1row := by
  induction n with
  | zero => rfl
  | succ m ih =>
    rw [List.range_succ, List.map_append]
    rw [captureMany, List.foldl_append]
    show (capture cfgEx (groupUpd "oi") (C1time m)
        (captureMany cfgEx
          ((List.range m).map (fun i => (groupUpd "oi", C1time i)))
          emptyDb)).messages = _
    rw [capture_groupUpd_oi, ih]
    simp [C1row]

theorem day_range_dEx :
    day_range dEx = (⟨2026, 2, 15, 0, 0, 0, 0⟩, ⟨2026, 2, 16, 0, 0, 0, 0⟩) := by
  decide

/-- Every C1 row matches the chat/day filter for chat 100 on 2026-02-15,
whatever its microsecond. -/
theorem C1row_in_window (i : Nat) :
    dayChatFilter 100 dEx (C1row i) = true := by
  unfold dayChatFilter
  rw [day_range_dEx, Bool.and_eq_true]
  refine ⟨rfl, ?_⟩
  unfold inRange
  rw [Bool.and_eq_true]
  constructor
  · rw [DateTime.leb, Bool.not_eq_true']
    rw [Bool.eq_false_iff]
    intro h
    rw [DateTime.ltb_iff] at h
    simp [C1row, C1time] at h
  · rw [DateTime.ltb_iff]
    simp [C1row, C1time]

theorem C1row_le {i j : Nat} (h : i ≤ j) :
    rowLe (C1row i) (C1row j) = true := by
  have hlt : DateTime.ltb (C1time j) (C1time i) = false := by
    rw [Bool.eq_false_iff]
    intro hb
    rw [DateTime.ltb_iff] at hb
    simp only [C1time] at hb
    omega
  simp [rowLe, C1row, DateTime.leb, hlt]

theorem C1db_fetch_rows :
    fetch_general_rows C1db.messages 100 dEx 8000
      = (List.range 8000).map C1row := by
  unfold fetch_general_rows
  rw [show C1db.messages = (List.range 8001).map C1row from C1state_messages 8001]
  rw [List.filter_eq_self.mpr (by
    intro r hr
    rcases List.mem_map.mp hr with ⟨i, _, hi⟩
    rw [← hi]
    exact C1row_in_window i)]
  rw [List.mergeSort_of_sorted (by
    rw [List.pairwise_map]
    refine (List.sorted_lt_range 8001).imp ?_
    intro i j hij
    exact C1row_le (Nat.le_of_lt hij))]
  rw [List.range_succ, List.map_append]
  exact List.take_left' (by simp)

/-- C1 counterexample: with 8001 messages captured for one chat on one day,
the 8001st captured message (the latest) lies in the chat's day window but
is absent from the day-scoped retrieval, because the query's `LIMIT 8000`
cuts it — refuting "returns that message exactly once". -/
theorem C1_counterexample :
    C1row 8000 ∈ C1db.messages
      ∧ (C1row 8000).chat_id = 100
      ∧ dayChatFilter 100 dEx (C1row 8000) = true
      ∧ C1row 8000 ∉ fetch_general_rows C1db.messages 100 dEx 8000 := by
  refine ⟨?_, rfl, C1row_in_window 8000, ?_⟩
  · rw [show C1db.messages = (List.range 8001).map C1row from
      C1state_messages 8001]
    exact List.mem_map_of_mem _ (List.mem_range.mpr (by omega))
  · rw [C1db_fetch_rows]
    intro hmem
    rcases List.mem_map.mp hmem with ⟨i, hi, heq⟩
    have : i = 8000 := congrArg Row.rowid heq
    rw [this] at hi
    exact absurd (List.mem_range.mp hi) (by omega)

/-- C1 (amended): provided at most 8000 rows of the chat fall inside the day
window (the query's `LIMIT`), the day-scoped retrieval returns each stored
matching row exactly once and its output is in non-decreasing capture-time
order; and the day window is half-open: 23:59:59.000000 of day `d` lies in
`d`'s window and not in the next day's, while midnight of the next day lies
in the next day's window and not in `d`'s. -/
theorem C1_day_scoped_retrieval :
    (∀ (msgs : List Row) (cid : Int) (d : Date) (r : Row),
        (msgs.map Row.rowid).Nodup →
        r ∈ msgs →
        dayChatFilter cid d r = true →
        (msgs.filter (dayChatFilter cid d)).length ≤ 8000 →
        (List.count r (fetch_general_rows msgs cid d 8000) = 1
          ∧ (fetch_general_rows msgs cid d 8000).Pairwise
              (fun a b => rowLe a b = true)))
    ∧ (∀ d : Date,
        inRange (day_range d).1 (day_range d).2
            ⟨d.year, d.month, d.day, 23, 59, 59, 0⟩ = true
          ∧ inRange (day_range d).1 (day_range d).2 d.next.startOfDay = false
          ∧ inRange (day_range d.next).1 (day_range d.next).2
              d.next.startOfDay = true
          ∧ inRange (day_range d.next).1 (day_range d.next).2
              ⟨d.year, d.month, d.day, 23, 59, 59, 0⟩ = false) := by
  constructor
  · intro msgs cid d r hnd hmem hpred hlen
    have hnodup : msgs.Nodup := List.Nodup.of_map _ hnd
    have hcount : msgs.count r = 1 := List.count_eq_one_of_mem hnodup hmem
    have hcf : (msgs.filter (dayChatFilter cid d)).count r = 1 := by
      rw [List.count_filter hpred, hcount]
    have hperm := List.mergeSort_perm (msgs.filter (dayChatFilter cid d)) rowLe
    have hlen2 :
        ((msgs.filter (dayChatFilter cid d)).mergeSort rowLe).length ≤ 8000 := by
      rw [hperm.length_eq]
      exact hlen
    have htake :
        ((msgs.filter (dayChatFilter cid d)).mergeSort rowLe).take 8000
          = (msgs.filter (dayChatFilter cid d)).mergeSort rowLe :=
      List.take_of_length_le hlen2
    constructor
    · rw [fetch_general_rows, htake, hperm.count_eq, hcf]
    · rw [fetch_general_rows, htake]
      apply List.sorted_mergeSort
      · exact fun a b c h₁ h₂ => rowLe_trans h₁ h₂
      · exact rowLe_total
  · intro d
    have hnext := date_lt_next d
    refine ⟨?_, ?_, ?_, ?_⟩
    · unfold inRange
      rw [Bool.and_eq_true]
      constructor
      · rw [DateTime.leb, Bool.not_eq_true', Bool.eq_false_iff]
        intro h
        rw [DateTime.ltb_iff] at h
        simp only [day_range, Date.startOfDay] at h
        omega
      · rw [DateTime.ltb_iff]
        simp only [day_range, Date.startOfDay]
        omega
    · unfold inRange
      have : DateTime.ltb d.next.startOfDay (day_range d).2 = false := by
        simp only [day_range]
        exact DateTime.ltb_irrefl _
      rw [this, Bool.and_false]
    · unfold inRange
      rw [Bool.and_eq_true]
      constructor
      · rw [DateTime.leb, Bool.not_eq_true', Bool.eq_false_iff]
        intro h
        rw [DateTime.ltb_iff] at h
        simp only [day_range, Date.startOfDay] at h
        omega
      · rw [DateTime.ltb_iff]
        have hnn := date_lt_next d.next
        simp only [day_range, Date.startOfDay] at hnn ⊢
        omega
    · unfold inRange
      have : DateTime.leb (day_range d.next).1
          ⟨d.year, d.month, d.day, 23, 59, 59, 0⟩ = false := by
        rw [DateTime.leb, Bool.not_eq_false']
        rw [DateTime.ltb_iff]
        simp only [day_range, Date.startOfDay] at hnext ⊢
        omega
      rw [this, Bool.false_and]

theorem C1_day_scoped_retrieval_witness :
    List.count (⟨0, 100, none, some 7, "Ana Silva", "oi", tEx⟩ : Row)
        (fetch_general_rows [⟨0, 100, none, some 7, "Ana Silva", "oi", tEx⟩]
          100 dEx 8000) = 1
      ∧ (fetch_general_rows [⟨0, 100, none, some 7, "Ana Silva", "oi", tEx⟩]
          100 dEx 8000).Pairwise (fun a b => rowLe a b = true) :=
  C1_day_scoped_retrieval.1
    [⟨0, 100, none, some 7, "Ana Silva", "oi", tEx⟩] 100 dEx
    ⟨0, 100, none, some 7, "Ana Silva", "oi", tEx⟩
    (by decide) (by simp) (by decide) (by decide)

end Bot
